import Mathlib

/-!
Verification development for the bulk git status/sync engine of the shelly
repository (src/shelly/commands/status.py and src/shelly/commands/git.py).

The per-repository operations are shallowly embedded as pure Lean functions
over an explicit environment (GitWorld) that records, per working-directory
path, what the filesystem and each git subprocess invocation would return.
A subprocess call either returns a completed-process value (exit code,
stdout, stderr) or raises a Python exception; raising is modelled with
Except.  Control flow of the Python try/except blocks is translated into
explicit matches on those Except values.
-/

/-- Result of a completed subprocess.run call: returncode, stdout, stderr. -/
structure ProcResult where
  returncode : Int
  stdout : String
  stderr : String
deriving DecidableEq

/-- Python exceptions distinguished by the except clauses of the embedded
code: subprocess.TimeoutExpired, subprocess.CalledProcessError, and any
other exception carrying its str text. -/
inductive PyExc where
  | timeoutExpired
  | calledProcessError
  | other (msg : String)
deriving DecidableEq

/-- Text produced by str(e).  Only the text of the catch-all constructor is
ever observed by a claim; the renderings for the two library exception
classes are placeholders for their class-specific messages. -/
def PyExc.str : PyExc → String
  | .timeoutExpired => "Command timed out"
  | .calledProcessError => "Command returned non-zero exit status"
  | .other msg => msg

/-- A tracked repository record as read from the cache: a Python dict whose
keys name, category and path may each be absent.  The code only ever reads
these three keys, via dict.get with a default. -/
structure RepoInfo where
  name : Option String
  category : Option String
  path : Option String
deriving DecidableEq

/-- Environment of one run: what the filesystem existence checks and each
git subprocess invocation return, as a function of the working-directory
path handed to subprocess.run (and, for rev-list, the branch name). -/
structure GitWorld where
  fsExists : String → Bool
  fetch : String → Except PyExc ProcResult
  revParseHead : String → Except PyExc ProcResult
  revList : String → String → Except PyExc ProcResult
  statusPorcelain : String → Except PyExc ProcResult
  stashList : String → Except PyExc ProcResult
  pull : String → Except PyExc ProcResult
  remoteV : String → Except PyExc ProcResult

/-- GitWorld with the pull response replaced, all else unchanged; used to
express that an outcome does not depend on the pull subprocess. -/
def setPull (w : GitWorld) (p : String → Except PyExc ProcResult) : GitWorld :=
  { w with pull := p }

/-- Python pathlib Path constructor applied to a string, restricted to the
normalization these inputs exercise: Path of the empty string denotes the
current directory "."; a non-empty path string is kept as is.  (pathlib
also collapses redundant separators; no input of the claims contains
any, so that is not modelled.) -/
def pyPath (s : String) : String :=
  if s = "" then "." else s

/-- Path join as used for repo_path / ".git": joining onto "." drops the
leading dot component, as pathlib does. -/
def pyJoin (p c : String) : String :=
  if p = "." then c else p ++ "/" ++ c

/-- Whitespace stripped by Python str.strip with no arguments.  (Python
also strips the rare further unicode space characters; none occurs in any
input here.) -/
def isPySpace (c : Char) : Bool :=
  c = ' ' || c = '\t' || c = '\n' || c = '\r' || c = '\x0b' || c = '\x0c'

/-- Python str.strip with no arguments: leading and trailing whitespace
removed. -/
def pyStrip (s : String) : String :=
  String.mk (((s.data.dropWhile isPySpace).reverse.dropWhile isPySpace).reverse)

/-- Splitting a character list on a separator character, Python style: the
empty list yields one empty group, and every separator occurrence starts a
new group. -/
def splitChar (c : Char) : List Char → List (List Char)
  | [] => [[]]
  | x :: rest =>
    match splitChar c rest with
    | [] => [[]]
    | g :: gs => if x = c then [] :: g :: gs else (x :: g) :: gs

/-- Python str.split with a one-character separator. -/
def pySplit (s : String) (c : Char) : List String :=
  (splitChar c s.data).map String.mk

/-- Python slice s[:n]. -/
def pyTake (s : String) (n : Nat) : String :=
  String.mk (s.data.take n)

/-- Python slice s[n:]. -/
def pyDrop (s : String) (n : Nat) : String :=
  String.mk (s.data.drop n)

/-- Python str.startswith. -/
def pyStartsWith (s p : String) : Bool :=
  p.data.isPrefixOf s.data

/-- Python str.endswith. -/
def pyEndsWith (s p : String) : Bool :=
  p.data.reverse.isPrefixOf s.data.reverse

/-- Python membership test of a character in a string. -/
def pyContainsChar (s : String) (c : Char) : Bool :=
  s.data.contains c

/-- Python int applied to a digit list (no sign): all characters must be
decimal digits and at least one must be present.  (Python also accepts
underscore digit grouping; no claim depends on it and it is not
modelled.) -/
def pyDigits (cs : List Char) : Option Int :=
  if cs.isEmpty then none
  else if cs.all Char.isDigit then
    some (Int.ofNat (cs.foldl (fun acc c => acc * 10 + (c.toNat - 48)) 0))
  else none

/-- Python int applied to a string: surrounding whitespace is stripped, an
optional single sign is consumed, the rest must be a non-empty digit run;
otherwise ValueError (modelled as none). -/
def pyInt (s : String) : Option Int :=
  match (pyStrip s).data with
  | [] => none
  | c :: rest =>
    if c = '+' then pyDigits rest
    else if c = '-' then (pyDigits rest).map (fun n => -n)
    else pyDigits (c :: rest)

/-- The classification buckets of the porcelain status scan. -/
inductive Bucket where
  | conflicts
  | staged
  | modified
  | untracked
deriving DecidableEq

/-- The four bucket lists accumulated by the porcelain scan. -/
structure Buckets where
  staged : List String
  modified : List String
  untracked : List String
  conflicts : List String
deriving DecidableEq

def emptyBuckets : Buckets := ⟨[], [], [], []⟩

/-- Append a filename to the bucket a line was classified into. -/
def addBucket (bk : Buckets) (b : Bucket) (f : String) : Buckets :=
  match b with
  | .staged => { bk with staged := bk.staged ++ [f] }
  | .modified => { bk with modified := bk.modified ++ [f] }
  | .untracked => { bk with untracked := bk.untracked ++ [f] }
  | .conflicts => { bk with conflicts := bk.conflicts ++ [f] }

/-- Python string indexing s[i]: the character, or IndexError when out of
range. -/
def pyCharAt (s : String) (i : Nat) : Except PyExc Char :=
  match s.data.get? i with
  | some c => .ok c
  | none => .error (.other "string index out of range")

/-- Classification of one non-empty porcelain status line
(status.py lines 157 to 167).  status_code is line[:2]; the rules are
tried in source order: unmerged codes to conflicts, else index column in
MADRC to staged, else worktree column in MD to modified, else a line
starting with ?? to untracked, else no bucket.  Indexing status_code[1]
on a one-character line raises IndexError, which propagates to the
enclosing try of the probe. -/
def classifyLine (line : String) : Except PyExc (Option Bucket) :=
  let code := pyTake line 2
  if pyStartsWith code "U" || pyEndsWith code "U" || code = "DD" then .ok (some .conflicts)
  else
    match pyCharAt code 0 with
    | .error e => .error e
    | .ok c0 =>
      if pyContainsChar "MADRC" c0 then .ok (some .staged)
      else
        match pyCharAt code 1 with
        | .error e => .error e
        | .ok c1 =>
          if pyContainsChar "MD" c1 then .ok (some .modified)
          else if pyStartsWith code "??" then .ok (some .untracked)
          else .ok none

/-- The porcelain scan loop over the split output lines: empty lines are
skipped, every other line is classified and its filename line[3:] is
appended to the chosen bucket; an IndexError aborts the loop. -/
def collectBucketsGo (bk : Buckets) : List String → Except PyExc Buckets
  | [] => .ok bk
  | line :: rest =>
    if line = "" then collectBucketsGo bk rest
    else
      match classifyLine line with
      | .error e => .error e
      | .ok none => collectBucketsGo bk rest
      | .ok (some b) => collectBucketsGo (addBucket bk b (pyDrop line 3)) rest

def collectBuckets (lines : List String) : Except PyExc Buckets :=
  collectBucketsGo emptyBuckets lines

/-- The per-repository probe result of status.py.  The Python code builds a
dict; its error returns carry only name, category, path, error and
has_changes, and every consumer reads the remaining keys through dict.get
with exactly these defaults (empty lists, zero counts, no branch), so the
embedding materializes those defaults in the record. -/
structure StatusInfo where
  name : String
  category : String
  path : String
  error : Option String
  has_changes : Bool
  branch : Option String
  ahead : Int
  behind : Int
  staged : List String
  modified : List String
  untracked : List String
  conflicts : List String
  stashes : Nat
deriving DecidableEq

/-- The degenerate result returned by the three error exits of
get_repository_status (missing path, not a git repository, unexpected
exception). -/
def errorShape (info : RepoInfo) (repoPath msg : String) : StatusInfo :=
  { name := info.name.getD "Unknown"
    category := info.category.getD "uncategorized"
    path := repoPath
    error := some msg
    has_changes := false
    branch := none
    ahead := 0
    behind := 0
    staged := []
    modified := []
    untracked := []
    conflicts := []
    stashes := 0 }

/-- The successful result assembled at the end of the probe, with
has_changes computed from the other gathered fields exactly as in
status.py lines 176 to 183. -/
def mkStatus (info : RepoInfo) (repoPath : String) (branch : Option String)
    (ab : Int × Int) (bk : Buckets) (stashes : Nat) : StatusInfo :=
  { name := info.name.getD "Unknown"
    category := info.category.getD "uncategorized"
    path := repoPath
    error := none
    has_changes := !bk.staged.isEmpty || !bk.modified.isEmpty || !bk.untracked.isEmpty
      || !bk.conflicts.isEmpty || decide (ab.1 > 0) || decide (ab.2 > 0)
    branch := branch
    ahead := ab.1
    behind := ab.2
    staged := bk.staged
    modified := bk.modified
    untracked := bk.untracked
    conflicts := bk.conflicts
    stashes := stashes }

/-- The optional fetch step of the probe: TimeoutExpired and
CalledProcessError are swallowed, anything else propagates. -/
def fetchStep (w : GitWorld) (rp : String) (fetch : Bool) : Except PyExc Unit :=
  if fetch then
    match w.fetch rp with
    | .ok _ => .ok ()
    | .error .timeoutExpired => .ok ()
    | .error .calledProcessError => .ok ()
    | .error e => .error e
  else .ok ()

/-- Branch determination: set from stripped stdout when rev-parse exits 0,
otherwise left at None. -/
def branchOf (rpr : ProcResult) : Option String :=
  if rpr.returncode = 0 then some (pyStrip rpr.stdout) else none

/-- Parsing of the rev-list left-right count output inside the try with
except (ValueError, CalledProcessError): the stripped stdout is split on a
tab and unpacked into exactly two names (otherwise ValueError leaves both
counts 0); the ahead field is then assigned int of the first part before
int of the second part runs, so a ValueError on the second part leaves a
parsed first value in place with behind still 0. -/
def parseAheadBehind (s : String) : Int × Int :=
  match pySplit (pyStrip s) '\t' with
  | [a, b] =>
    match pyInt a with
    | none => (0, 0)
    | some ia =>
      match pyInt b with
      | none => (ia, 0)
      | some ib => (ia, ib)
  | _ => (0, 0)

/-- Ahead/behind step: skipped unless a truthy branch other than the HEAD
placeholder was resolved; a rev-list CalledProcessError is swallowed by
the inner except, a non-zero exit skips the parse, other exceptions
propagate. -/
def abStep (w : GitWorld) (rp : String) (branch : Option String) : Except PyExc (Int × Int) :=
  match branch with
  | none => .ok (0, 0)
  | some b =>
    if b ≠ "" ∧ b ≠ "HEAD" then
      match w.revList rp b with
      | .ok r => if r.returncode = 0 then .ok (parseAheadBehind r.stdout) else .ok (0, 0)
      | .error .calledProcessError => .ok (0, 0)
      | .error e => .error e
    else .ok (0, 0)

/-- Porcelain step: when the status call exits 0 its stripped stdout is
split into lines and scanned into buckets, otherwise the buckets stay
empty. -/
def bucketsStep (sr : ProcResult) : Except PyExc Buckets :=
  if sr.returncode = 0 then collectBuckets (pySplit (pyStrip sr.stdout) '\n')
  else .ok emptyBuckets

/-- Stash count: the number of non-empty lines of the stash list output
when the call exits 0, otherwise 0. -/
def stashCount (st : ProcResult) : Nat :=
  if st.returncode = 0 then
    ((pySplit (pyStrip st.stdout) '\n').filter (fun l => l ≠ "")).length
  else 0

/-- Body of the try block of get_repository_status (status.py lines 96 to
185): fetch (optional), branch, ahead/behind, porcelain scan, stash count,
then the assembled result; any uncaught exception escapes to the caller. -/
def probeBody (w : GitWorld) (info : RepoInfo) (rp : String) (fetch : Bool) :
    Except PyExc StatusInfo :=
  match fetchStep w rp fetch with
  | .error e => .error e
  | .ok _ =>
    match w.revParseHead rp with
    | .error e => .error e
    | .ok rpr =>
      match abStep w rp (branchOf rpr) with
      | .error e => .error e
      | .ok ab =>
        match w.statusPorcelain rp with
        | .error e => .error e
        | .ok sr =>
          match bucketsStep sr with
          | .error e => .error e
          | .ok bk =>
            match w.stashList rp with
            | .error e => .error e
            | .ok st =>
              .ok (mkStatus info rp (branchOf rpr) ab bk (stashCount st))

/-- Continuation of the probe once the path is known to exist and to hold a
.git directory: run the try block; an escaped exception is converted into
the error shape carrying str(e). -/
def probeGitRepo (w : GitWorld) (info : RepoInfo) (rp : String) (fetch : Bool) : StatusInfo :=
  match probeBody w info rp fetch with
  | .ok si => si
  | .error e => errorShape info rp e.str

/-- get_repository_status (status.py lines 74 to 194); repo_path is the
Path built from the records path value, defaulting to the empty string. -/
def get_repository_status (w : GitWorld) (info : RepoInfo) (fetch : Bool) : StatusInfo :=
  if w.fsExists (pyPath (info.path.getD "")) = false then
    errorShape info (pyPath (info.path.getD "")) "Repository path not found"
  else if w.fsExists (pyJoin (pyPath (info.path.getD "")) ".git") = false then
    errorShape info (pyPath (info.path.getD "")) "Not a git repository"
  else probeGitRepo w info (pyPath (info.path.getD "")) fetch

/-- Per-repository outcome of the sync and pull operations: the dict with
keys name, success, message. -/
structure OpResult where
  name : String
  success : Bool
  message : String
deriving DecidableEq

/-- Body of the try block of sync_repository (git.py lines 193 to 229):
fetch all, then porcelain status, then pull only when the working
directory is clean. -/
def syncBody (w : GitWorld) (rp nm : String) : Except PyExc OpResult :=
  match w.fetch rp with
  | .error e => .error e
  | .ok fr =>
    if fr.returncode ≠ 0 then .ok ⟨nm, false, "Fetch failed: " ++ fr.stderr⟩
    else
      match w.statusPorcelain rp with
      | .error e => .error e
      | .ok sr =>
        if sr.returncode ≠ 0 then .ok ⟨nm, false, "Could not check status"⟩
        else if pyStrip sr.stdout = "" then
          match w.pull rp with
          | .error e => .error e
          | .ok pr =>
            if pr.returncode ≠ 0 then .ok ⟨nm, false, "Pull failed: " ++ pr.stderr⟩
            else .ok ⟨nm, true, "Fetched and pulled successfully"⟩
        else .ok ⟨nm, true, "Fetched (working directory has changes)"⟩

/-- Continuation of sync_repository after the two existence checks, with
the exception handlers of git.py lines 230 to 233. -/
def syncGitRepo (w : GitWorld) (rp nm : String) : OpResult :=
  match syncBody w rp nm with
  | .ok r => r
  | .error .timeoutExpired => ⟨nm, false, "Operation timed out"⟩
  | .error e => ⟨nm, false, e.str⟩

/-- sync_repository (git.py lines 182 to 233). -/
def sync_repository (w : GitWorld) (info : RepoInfo) : OpResult :=
  if w.fsExists (pyPath (info.path.getD "")) = false then
    ⟨info.name.getD "Unknown", false, "Repository path not found"⟩
  else if w.fsExists (pyJoin (pyPath (info.path.getD "")) ".git") = false then
    ⟨info.name.getD "Unknown", false, "Not a git repository"⟩
  else syncGitRepo w (pyPath (info.path.getD "")) (info.name.getD "Unknown")

/-- The pull block shared by the force and non-force paths of
pull_repository (git.py lines 261 to 271). -/
def pullStep (w : GitWorld) (rp nm : String) : Except PyExc OpResult :=
  match w.pull rp with
  | .error e => .error e
  | .ok pr =>
    if pr.returncode ≠ 0 then .ok ⟨nm, false, "Pull failed: " ++ pr.stderr⟩
    else .ok ⟨nm, true, "Pulled successfully"⟩

/-- Body of the try block of pull_repository: unless force is set, a dirty
or unreadable working directory returns early, otherwise the pull block
runs. -/
def pullBody (w : GitWorld) (rp nm : String) (force : Bool) : Except PyExc OpResult :=
  if force then pullStep w rp nm
  else
    match w.statusPorcelain rp with
    | .error e => .error e
    | .ok sr =>
      if sr.returncode ≠ 0 then .ok ⟨nm, false, "Could not check status"⟩
      else if pyStrip sr.stdout ≠ "" then
        .ok ⟨nm, false, "Working directory has changes (use --force to override)"⟩
      else pullStep w rp nm

/-- Continuation of pull_repository after the two existence checks, with
the exception handlers of git.py lines 273 to 276. -/
def pullGitRepo (w : GitWorld) (rp nm : String) (force : Bool) : OpResult :=
  match pullBody w rp nm force with
  | .ok r => r
  | .error .timeoutExpired => ⟨nm, false, "Pull timed out"⟩
  | .error e => ⟨nm, false, e.str⟩

/-- pull_repository (git.py lines 236 to 276). -/
def pull_repository (w : GitWorld) (info : RepoInfo) (force : Bool) : OpResult :=
  if w.fsExists (pyPath (info.path.getD "")) = false then
    ⟨info.name.getD "Unknown", false, "Repository path not found"⟩
  else if w.fsExists (pyJoin (pyPath (info.path.getD "")) ".git") = false then
    ⟨info.name.getD "Unknown", false, "Not a git repository"⟩
  else pullGitRepo w (pyPath (info.path.getD "")) (info.name.getD "Unknown") force

/-- A health issue record of check_repository_health. -/
structure Issue where
  repo : String
  type : String
  message : String
  fixable : Bool
  fix_action : Option String
deriving DecidableEq

def missingPathIssue (nm : String) : Issue :=
  ⟨nm, "missing_path", "Repository path does not exist", true, some "remove_from_cache"⟩

def notGitIssue (nm : String) : Issue :=
  ⟨nm, "not_git_repo", "Directory exists but is not a git repository", true,
    some "remove_from_cache"⟩

def noRemotesIssue (nm : String) : Issue :=
  ⟨nm, "no_remotes", "No remote repositories configured", false, none⟩

def detachedIssue (nm : String) : Issue :=
  ⟨nm, "detached_head", "Repository is in detached HEAD state", false, none⟩

def manyUntrackedIssue (nm : String) (n : Nat) : Issue :=
  ⟨nm, "many_untracked", "Large number of untracked files (" ++ toString n ++ ")", false, none⟩

def checkErrorIssue (nm : String) (e : PyExc) : Issue :=
  ⟨nm, "check_error", "Error during health check: " ++ e.str, false, none⟩

/-- The try block of check_repository_health (git.py lines 307 to 359):
three checks run in order, each appending at most one issue; an exception
raised by a later check appends a single check_error issue after the
issues already accumulated. -/
def healthChecks (w : GitWorld) (rp nm : String) : List Issue :=
  match w.remoteV rp with
  | .error e => [checkErrorIssue nm e]
  | .ok r1 =>
    let issues1 :=
      if r1.returncode = 0 then (if pyStrip r1.stdout = "" then [noRemotesIssue nm] else [])
      else []
    match w.revParseHead rp with
    | .error e => issues1 ++ [checkErrorIssue nm e]
    | .ok r2 =>
      let issues2 := issues1 ++
        (if r2.returncode = 0 ∧ pyStrip r2.stdout = "HEAD" then [detachedIssue nm] else [])
      match w.statusPorcelain rp with
      | .error e => issues2 ++ [checkErrorIssue nm e]
      | .ok r3 =>
        let untracked := (pySplit r3.stdout '\n').filter (fun l => pyStartsWith l "??")
        issues2 ++
          (if r3.returncode = 0 ∧ untracked.length > 50
            then [manyUntrackedIssue nm untracked.length] else [])

/-- check_repository_health (git.py lines 279 to 361). -/
def check_repository_health (w : GitWorld) (info : RepoInfo) : List Issue :=
  if w.fsExists (pyPath (info.path.getD "")) = false then
    [missingPathIssue (info.name.getD "Unknown")]
  else if w.fsExists (pyJoin (pyPath (info.path.getD "")) ".git") = false then
    [notGitIssue (info.name.getD "Unknown")]
  else healthChecks w (pyPath (info.path.getD "")) (info.name.getD "Unknown")

/-- One completion step of the status command aggregation loop
(status.py lines 50 to 57): a future whose worker returned normally
appends its result dict (always a non-empty, hence truthy, dict); a future
whose worker raised leads to a printed error line and appends nothing. -/
def statusStep (probe : RepoInfo → Except String StatusInfo)
    (acc : List StatusInfo) (r : RepoInfo) : List StatusInfo :=
  match probe r with
  | .ok s => acc ++ [s]
  | .error _ => acc

/-- Aggregated result list of the parallel status probe.  The worker pool
is modelled by an abstract worker callable (which may raise) and a
completion order: the futures finish in the order of the given list. -/
def collectStatuses (probe : RepoInfo → Except String StatusInfo)
    (order : List RepoInfo) : List StatusInfo :=
  order.foldl (statusStep probe) []

/-- Sequential pull loop of the pull command (git.py lines 90 to 93). -/
def pullResults (w : GitWorld) (repos : List RepoInfo) (force : Bool) : List OpResult :=
  repos.map (fun r => pull_repository w r force)

/-- sync_repositories_sequential (git.py lines 172 to 179): outcomes in
input order. -/
def sync_repositories_sequential (w : GitWorld) (repos : List RepoInfo) : List OpResult :=
  repos.map (fun r => sync_repository w r)

/-- sync_repositories_parallel (git.py lines 152 to 169): workers complete
in an arbitrary order, modelled by handing the function the completion
order, a permutation of the input list; each completed future contributes
the outcome of sync_repository for its repository. -/
def sync_repositories_parallel (w : GitWorld) (order : List RepoInfo) : List OpResult :=
  order.map (fun r => sync_repository w r)

/-! Concrete fixtures used by the witness theorems. -/

def okProc (out : String) : Except PyExc ProcResult := .ok ⟨0, out, ""⟩

def wBase : GitWorld :=
  { fsExists := fun _ => true
    fetch := fun _ => okProc ""
    revParseHead := fun _ => okProc "main\n"
    revList := fun _ _ => okProc "0\t0\n"
    statusPorcelain := fun _ => okProc ""
    stashList := fun _ => okProc ""
    pull := fun _ => okProc ""
    remoteV := fun _ => okProc "origin\tgithost (fetch)\n" }

def wNoPath : GitWorld := { wBase with fsExists := fun _ => false }

def infoA : RepoInfo := { name := some "alpha", category := none, path := some "/repo/alpha" }

/-! Helper lemmas shared by several claims. -/

lemma probeBody_ok (w : GitWorld) (info : RepoInfo) (rp : String) (fetch : Bool)
    (si : StatusInfo) (h : probeBody w info rp fetch = .ok si) :
    ∃ br ab bk st, si = mkStatus info rp br ab bk st := by
  unfold probeBody at h
  split at h
  · cases h
  · split at h
    · cases h
    · split at h
      · cases h
      · split at h
        · cases h
        · split at h
          · cases h
          · split at h
            · cases h
            · cases h
              exact ⟨_, _, _, _, rfl⟩

lemma get_status_cases (w : GitWorld) (info : RepoInfo) (fetch : Bool) :
    (∃ msg, get_repository_status w info fetch
        = errorShape info (pyPath (info.path.getD "")) msg)
    ∨ ∃ br ab bk st, get_repository_status w info fetch
        = mkStatus info (pyPath (info.path.getD "")) br ab bk st := by
  unfold get_repository_status
  split
  · exact Or.inl ⟨_, rfl⟩
  · split
    · exact Or.inl ⟨_, rfl⟩
    · unfold probeGitRepo
      cases hpb : probeBody w info (pyPath (info.path.getD "")) fetch with
      | ok si => exact Or.inr (probeBody_ok _ _ _ _ _ hpb)
      | error e => exact Or.inl ⟨_, rfl⟩

/-! Claim theorems. -/

/-- Claim C2: whenever error is set on a probe result, the staged, modified,
untracked and conflicts lists are empty, ahead and behind are both 0 and
has_changes is false; the result equals the error shape outright, so any
fields gathered before an exception are discarded. -/
theorem c2_error_exclusivity (w : GitWorld) (info : RepoInfo) (fetch : Bool) (e : String)
    (h : (get_repository_status w info fetch).error = some e) :
    get_repository_status w info fetch = errorShape info (pyPath (info.path.getD "")) e
    ∧ (get_repository_status w info fetch).staged = []
    ∧ (get_repository_status w info fetch).modified = []
    ∧ (get_repository_status w info fetch).untracked = []
    ∧ (get_repository_status w info fetch).conflicts = []
    ∧ (get_repository_status w info fetch).ahead = 0
    ∧ (get_repository_status w info fetch).behind = 0
    ∧ (get_repository_status w info fetch).has_changes = false := by
  rcases get_status_cases w info fetch with ⟨msg, hm⟩ | ⟨br, ab, bk, st, hm⟩
  · rw [hm] at h ⊢
    simp only [errorShape, Option.some.injEq] at h
    subst h
    exact ⟨rfl, rfl, rfl, rfl, rfl, rfl, rfl, rfl⟩
  · rw [hm] at h
    simp [mkStatus] at h

/-- Witness for C2 at a concrete world whose filesystem lacks the path. -/
theorem c2_witness :
    (get_repository_status wNoPath infoA false).error = some "Repository path not found"
    ∧ (get_repository_status wNoPath infoA false
          = errorShape infoA (pyPath (infoA.path.getD "")) "Repository path not found"
      ∧ (get_repository_status wNoPath infoA false).staged = []
      ∧ (get_repository_status wNoPath infoA false).modified = []
      ∧ (get_repository_status wNoPath infoA false).untracked = []
      ∧ (get_repository_status wNoPath infoA false).conflicts = []
      ∧ (get_repository_status wNoPath infoA false).ahead = 0
      ∧ (get_repository_status wNoPath infoA false).behind = 0
      ∧ (get_repository_status wNoPath infoA false).has_changes = false) :=
  ⟨rfl, c2_error_exclusivity wNoPath infoA false "Repository path not found" rfl⟩

/-- Claim C3: for every probe result produced without error, has_changes
holds iff one of the four lists is non-empty or ahead or behind is
positive; it is computed from those fields by construction. -/
theorem c3_has_changes_invariant (w : GitWorld) (info : RepoInfo) (fetch : Bool)
    (h : (get_repository_status w info fetch).error = none) :
    ((get_repository_status w info fetch).has_changes = true
      ↔ ((get_repository_status w info fetch).staged ≠ []
        ∨ (get_repository_status w info fetch).modified ≠ []
        ∨ (get_repository_status w info fetch).untracked ≠ []
        ∨ (get_repository_status w info fetch).conflicts ≠ []
        ∨ (get_repository_status w info fetch).ahead > 0
        ∨ (get_repository_status w info fetch).behind > 0)) := by
  rcases get_status_cases w info fetch with ⟨msg, hm⟩ | ⟨br, ab, bk, st, hm⟩
  · rw [hm] at h
    simp [errorShape] at h
  · rw [hm]
    simp [mkStatus, or_assoc]

/-- Witness for C3 at a concrete clean-repository world. -/
theorem c3_witness :
    (get_repository_status wBase infoA false).error = none
    ∧ ((get_repository_status wBase infoA false).has_changes = true
      ↔ ((get_repository_status wBase infoA false).staged ≠ []
        ∨ (get_repository_status wBase infoA false).modified ≠ []
        ∨ (get_repository_status wBase infoA false).untracked ≠ []
        ∨ (get_repository_status wBase infoA false).conflicts ≠ []
        ∨ (get_repository_status wBase infoA false).ahead > 0
        ∨ (get_repository_status wBase infoA false).behind > 0)) :=
  ⟨rfl, c3_has_changes_invariant wBase infoA false rfl⟩

lemma collectStatuses_go (probe : RepoInfo → Except String StatusInfo)
    (order : List RepoInfo) (acc : List StatusInfo) :
    order.foldl (statusStep probe) acc
      = acc ++ order.filterMap (fun r => (probe r).toOption) := by
  induction order generalizing acc with
  | nil => simp
  | cons r rest ih =>
    simp only [List.foldl_cons, List.filterMap_cons]
    cases hp : probe r with
    | ok s => simp [statusStep, hp, ih, Except.toOption]
    | error e => simp [statusStep, hp, ih, Except.toOption]

/-- Claim C1 (amended): the sequential pull loop and the parallel sync path
yield exactly one outcome per input repository, but the parallel status
probe aggregates exactly the results of the workers that return normally:
a repository whose worker raises is omitted from the aggregated list (its
error is only printed), so its result count is zero, not one. -/
theorem c1_amended (probe : RepoInfo → Except String StatusInfo)
    (order repos : List RepoInfo) (w : GitWorld) (force : Bool)
    (h : order.Perm repos) :
    collectStatuses probe order = order.filterMap (fun r => (probe r).toOption)
    ∧ (pullResults w repos force).length = repos.length
    ∧ (sync_repositories_parallel w order).length = repos.length := by
  refine ⟨?_, ?_, ?_⟩
  · simpa [collectStatuses] using collectStatuses_go probe order []
  · simp [pullResults]
  · simp [sync_repositories_parallel, h.length_eq]

/-- Counterexample to C1 as stated: with one input repository whose worker
raises, the aggregated status list is empty, not a singleton failure
result. -/
theorem c1_counterexample :
    [infoA].length = 1
    ∧ collectStatuses (fun _ => .error "boom") [infoA] = [] :=
  ⟨rfl, rfl⟩

def probeOk : RepoInfo → Except String StatusInfo :=
  fun r => .ok (errorShape r "." "probe placeholder")

/-- Witness for the amended C1 at a concrete world and worker. -/
theorem c1_amended_witness :
    (collectStatuses probeOk [infoA] = [infoA].filterMap (fun r => (probeOk r).toOption))
    ∧ (pullResults wBase [infoA] true).length = [infoA].length
    ∧ (sync_repositories_parallel wBase [infoA]).length = [infoA].length :=
  c1_amended probeOk [infoA] [infoA] wBase true (List.Perm.refl _)

/-- Claim C9: for a fixed world of git responses, the parallel sync path,
whose completion order is any permutation of the input, and the sequential
sync path produce outcome collections that are equal as multisets. -/
theorem c9_seq_par_equiv (w : GitWorld) (repos order : List RepoInfo)
    (h : order.Perm repos) :
    Multiset.ofList (sync_repositories_parallel w order)
      = Multiset.ofList (sync_repositories_sequential w repos) := by
  unfold sync_repositories_parallel sync_repositories_sequential
  exact Quotient.sound (h.map _)

/-- Witness for C9 at a concrete world and input list. -/
theorem c9_witness :
    Multiset.ofList (sync_repositories_parallel wBase [infoA])
      = Multiset.ofList (sync_repositories_sequential wBase [infoA]) :=
  c9_seq_par_equiv wBase [infoA] [infoA] (List.Perm.refl _)

def wFetchFail : GitWorld :=
  { wBase with fetch := fun _ => .ok ⟨1, "", "could not resolve host"⟩ }

def wPullTO : GitWorld := { wBase with pull := fun _ => .error .timeoutExpired }

def wHealthBoom : GitWorld :=
  { wBase with remoteV := fun _ => okProc ""
               revParseHead := fun _ => .error (.other "boom") }

def wPartialParse : GitWorld := { wBase with revList := fun _ _ => okProc "3\tfoo" }

def infoNoPath : RepoInfo := { name := some "beta", category := none, path := none }

/-- Claim C4: for a repository whose path exists and is a git working tree,
sync follows the fetch-then-conditional-pull sequence: a non-zero fetch
exit yields the fetch-failed outcome with no pull attempted (the outcome
is independent of the pull response); a zero fetch with clean status and
successful pull yields the fetched-and-pulled success outcome; a zero
fetch with dirty status yields the fetched-with-changes success outcome,
again with no pull attempted. -/
theorem c4_sync_sequence (w : GitWorld) (info : RepoInfo) (rp nm : String)
    (hrp : rp = pyPath (info.path.getD "")) (hnm : nm = info.name.getD "Unknown")
    (h1 : w.fsExists rp = true) (h2 : w.fsExists (pyJoin rp ".git") = true) :
    (∀ fr, w.fetch rp = .ok fr → fr.returncode ≠ 0 →
      sync_repository w info = ⟨nm, false, "Fetch failed: " ++ fr.stderr⟩
      ∧ ∀ p, sync_repository (setPull w p) info = sync_repository w info)
    ∧ (∀ fr sr pr, w.fetch rp = .ok fr → fr.returncode = 0 →
      w.statusPorcelain rp = .ok sr → sr.returncode = 0 → pyStrip sr.stdout = "" →
      w.pull rp = .ok pr → pr.returncode = 0 →
      sync_repository w info = ⟨nm, true, "Fetched and pulled successfully"⟩)
    ∧ (∀ fr sr, w.fetch rp = .ok fr → fr.returncode = 0 →
      w.statusPorcelain rp = .ok sr → sr.returncode = 0 → pyStrip sr.stdout ≠ "" →
      sync_repository w info = ⟨nm, true, "Fetched (working directory has changes)"⟩
      ∧ ∀ p, sync_repository (setPull w p) info = sync_repository w info) := by
  subst hrp hnm
  refine ⟨?_, ?_, ?_⟩
  · intro fr hf hrc
    refine ⟨?_, ?_⟩
    · simp [sync_repository, h1, h2, syncGitRepo, syncBody, hf, hrc]
    · intro p
      simp [sync_repository, setPull, h1, h2, syncGitRepo, syncBody, hf, hrc]
  · intro fr sr pr hf hrc hs hsc hclean hp hprc
    simp [sync_repository, h1, h2, syncGitRepo, syncBody, hf, hrc, hs, hsc, hclean, hp, hprc]
  · intro fr sr hf hrc hs hsc hdirty
    refine ⟨?_, ?_⟩
    · simp [sync_repository, h1, h2, syncGitRepo, syncBody, hf, hrc, hs, hsc, hdirty]
    · intro p
      simp [sync_repository, setPull, h1, h2, syncGitRepo, syncBody, hf, hrc, hs, hsc, hdirty]

/-- Witness for C4: a concrete fetch failure produces the fetch-failed
outcome. -/
theorem c4_witness :
    ((⟨1, "", "could not resolve host"⟩ : ProcResult).returncode ≠ 0)
    ∧ sync_repository wFetchFail infoA
        = ⟨"alpha", false, "Fetch failed: could not resolve host"⟩ :=
  ⟨by decide,
    ((c4_sync_sequence wFetchFail infoA "/repo/alpha" "alpha" rfl rfl rfl rfl).1
      ⟨1, "", "could not resolve host"⟩ rfl (by decide)).1⟩

/-- Claim C7 (amended): a pull timeout in pull_repository yields the
outcome with message Pull timed out, which differs from the canonical
sync timeout message Operation timed out. -/
theorem c7_pull_timeout_amended (w : GitWorld) (info : RepoInfo) (rp nm : String)
    (force : Bool) (sr : ProcResult)
    (hrp : rp = pyPath (info.path.getD "")) (hnm : nm = info.name.getD "Unknown")
    (h1 : w.fsExists rp = true) (h2 : w.fsExists (pyJoin rp ".git") = true)
    (hsr : w.statusPorcelain rp = .ok sr) (hsc : sr.returncode = 0)
    (hclean : pyStrip sr.stdout = "")
    (hpull : w.pull rp = .error .timeoutExpired) :
    pull_repository w info force = ⟨nm, false, "Pull timed out"⟩ := by
  subst hrp hnm
  cases force with
  | true => simp [pull_repository, h1, h2, pullGitRepo, pullBody, pullStep, hpull]
  | false =>
    simp [pull_repository, h1, h2, pullGitRepo, pullBody, pullStep, hsr, hsc, hclean, hpull]

/-- Counterexample to C7 as stated: the pull-only timeout outcome carries
the message Pull timed out, not the sync message Operation timed out. -/
theorem c7_counterexample :
    pull_repository wPullTO infoA true = ⟨"alpha", false, "Pull timed out"⟩
    ∧ "Pull timed out" ≠ "Operation timed out" :=
  ⟨rfl, by decide⟩

/-- Witness for the amended C7 on the non-force path. -/
theorem c7_witness :
    pull_repository wPullTO infoA false = ⟨"alpha", false, "Pull timed out"⟩ :=
  c7_pull_timeout_amended wPullTO infoA "/repo/alpha" "alpha" false ⟨0, "", ""⟩
    rfl rfl rfl rfl rfl rfl rfl rfl

/-- Claim C6 (amended): an exception raised during the remote, detached
HEAD or untracked checks makes check_repository_health return the issues
accumulated before the exception followed by exactly one check_error
issue carrying the exception text; earlier issues are retained, not
replaced. -/
theorem c6_check_error_amended (w : GitWorld) (info : RepoInfo) (rp nm : String) (e : PyExc)
    (hrp : rp = pyPath (info.path.getD "")) (hnm : nm = info.name.getD "Unknown")
    (h1 : w.fsExists rp = true) (h2 : w.fsExists (pyJoin rp ".git") = true) :
    (w.remoteV rp = .error e → check_repository_health w info = [checkErrorIssue nm e])
    ∧ (∀ r1, w.remoteV rp = .ok r1 → w.revParseHead rp = .error e →
        check_repository_health w info =
          (if r1.returncode = 0 then
            (if pyStrip r1.stdout = "" then [noRemotesIssue nm] else []) else [])
          ++ [checkErrorIssue nm e])
    ∧ (∀ r1 r2, w.remoteV rp = .ok r1 → w.revParseHead rp = .ok r2 →
        w.statusPorcelain rp = .error e →
        check_repository_health w info =
          ((if r1.returncode = 0 then
              (if pyStrip r1.stdout = "" then [noRemotesIssue nm] else []) else [])
            ++ (if r2.returncode = 0 ∧ pyStrip r2.stdout = "HEAD"
                then [detachedIssue nm] else []))
          ++ [checkErrorIssue nm e]) := by
  subst hrp hnm
  refine ⟨?_, ?_, ?_⟩
  · intro hrm
    simp [check_repository_health, h1, h2, healthChecks, hrm]
  · intro r1 hrm hrv
    simp [check_repository_health, h1, h2, healthChecks, hrm, hrv]
  · intro r1 r2 hrm hrv hsp
    simp [check_repository_health, h1, h2, healthChecks, hrm, hrv, hsp]

/-- Counterexample to C6 as stated: with a configured-remotes issue already
found, an exception in the next check appends the check_error issue, so
two issues are returned, not a single replacing one. -/
theorem c6_counterexample :
    check_repository_health wHealthBoom infoA
      = [noRemotesIssue "alpha", checkErrorIssue "alpha" (.other "boom")]
    ∧ (check_repository_health wHealthBoom infoA).length = 2 :=
  ⟨rfl, rfl⟩

/-- Witness for the amended C6 at the same concrete world. -/
theorem c6_witness :
    check_repository_health wHealthBoom infoA =
      (if (⟨0, "", ""⟩ : ProcResult).returncode = 0 then
        (if pyStrip (⟨0, "", ""⟩ : ProcResult).stdout = "" then [noRemotesIssue "alpha"]
          else []) else [])
      ++ [checkErrorIssue "alpha" (.other "boom")] :=
  (c6_check_error_amended wHealthBoom infoA "/repo/alpha" "alpha" (.other "boom")
    rfl rfl rfl rfl).2.1 ⟨0, "", ""⟩ rfl rfl

/-- The unmerged-code condition of the classifier, on status_code. -/
def conflictCond (code : String) : Bool :=
  pyStartsWith code "U" || pyEndsWith code "U" || code = "DD"

/-- The index-column condition of the classifier: the first character of
status_code is one of MADRC. -/
def stagedCond (code : String) : Bool :=
  match code.data.get? 0 with
  | some c => pyContainsChar "MADRC" c
  | none => false

/-- The worktree-column condition of the classifier: the second character
of status_code is one of MD. -/
def modifiedCond (code : String) : Bool :=
  match code.data.get? 1 with
  | some c => pyContainsChar "MD" c
  | none => false

lemma classifyLine_two (line : String) (c0 c1 : Char) (rest : List Char)
    (hcode : (pyTake line 2).data = c0 :: c1 :: rest) :
    classifyLine line =
      if conflictCond (pyTake line 2) then .ok (some .conflicts)
      else if pyContainsChar "MADRC" c0 then .ok (some .staged)
      else if pyContainsChar "MD" c1 then .ok (some .modified)
      else if pyStartsWith (pyTake line 2) "??" then .ok (some .untracked)
      else .ok none := by
  simp only [classifyLine, conflictCond, pyCharAt]
  rw [hcode]
  rfl

lemma classifyLine_one (line : String) (c0 : Char)
    (hcode : (pyTake line 2).data = [c0]) :
    classifyLine line =
      if conflictCond (pyTake line 2) then .ok (some .conflicts)
      else if pyContainsChar "MADRC" c0 then .ok (some .staged)
      else .error (.other "string index out of range") := by
  simp only [classifyLine, conflictCond, pyCharAt]
  rw [hcode]
  rfl

/-- Claim C5 (amended): the classification rules are applied in precedence
order (conflicts, then staged, then modified, then untracked), and every
status line lands in at most one bucket: a line matching none of the
rules is put in no bucket. -/
theorem c5_precedence_amended (line : String) :
    (conflictCond (pyTake line 2) = true → classifyLine line = .ok (some .conflicts))
    ∧ (conflictCond (pyTake line 2) = false → stagedCond (pyTake line 2) = true →
        classifyLine line = .ok (some .staged))
    ∧ (conflictCond (pyTake line 2) = false → stagedCond (pyTake line 2) = false →
        modifiedCond (pyTake line 2) = true → classifyLine line = .ok (some .modified))
    ∧ (conflictCond (pyTake line 2) = false → stagedCond (pyTake line 2) = false →
        modifiedCond (pyTake line 2) = false → pyStartsWith (pyTake line 2) "??" = true →
        classifyLine line = .ok (some .untracked))
    ∧ (conflictCond (pyTake line 2) = false → stagedCond (pyTake line 2) = false →
        modifiedCond (pyTake line 2) = false → pyStartsWith (pyTake line 2) "??" = false →
        2 ≤ line.data.length → classifyLine line = .ok none)
    ∧ (∀ b, classifyLine line = .ok (some b) →
        collectBuckets [line] = .ok (addBucket emptyBuckets b (pyDrop line 3))) := by
  refine ⟨?_, ?_, ?_, ?_, ?_, ?_⟩
  · intro hc
    rw [conflictCond] at hc
    simp only [classifyLine]
    rw [if_pos hc]
  · intro hc hs
    rcases hdata : (pyTake line 2).data with _ | ⟨c0, _ | ⟨c1, cs1⟩⟩
    · simp [stagedCond, hdata] at hs
    · simp only [stagedCond, hdata] at hs
      simp only [List.get?] at hs
      simp [classifyLine_one line c0 hdata, hc, hs]
    · simp only [stagedCond, hdata] at hs
      simp only [List.get?] at hs
      simp [classifyLine_two line c0 c1 cs1 hdata, hc, hs]
  · intro hc hs hm
    rcases hdata : (pyTake line 2).data with _ | ⟨c0, _ | ⟨c1, cs1⟩⟩
    · simp [modifiedCond, hdata] at hm
    · simp [modifiedCond, hdata] at hm
    · simp only [stagedCond, modifiedCond, hdata, List.get?] at hs hm
      simp [classifyLine_two line c0 c1 cs1 hdata, hc, hs, hm]
  · intro hc hs hm hu
    rcases hdata : (pyTake line 2).data with _ | ⟨c0, _ | ⟨c1, cs1⟩⟩
    · simp [pyStartsWith, hdata] at hu
    · simp [pyStartsWith, hdata, List.isPrefixOf] at hu
    · simp only [stagedCond, modifiedCond, hdata, List.get?] at hs hm
      simp [classifyLine_two line c0 c1 cs1 hdata, hc, hs, hm, hu]
  · intro hc hs hm hu hlen
    rcases hdata : (pyTake line 2).data with _ | ⟨c0, _ | ⟨c1, cs1⟩⟩
    · exfalso
      have htake : line.data.take 2 = [] := hdata
      have hlt := congrArg List.length htake
      rw [List.length_take] at hlt
      simp only [List.length_nil] at hlt
      omega
    · exfalso
      have htake : line.data.take 2 = [c0] := hdata
      have hlt := congrArg List.length htake
      rw [List.length_take] at hlt
      simp only [List.length_cons, List.length_nil] at hlt
      omega
    · simp only [stagedCond, modifiedCond, hdata, List.get?] at hs hm
      simp [classifyLine_two line c0 c1 cs1 hdata, hc, hs, hm, hu]
  · intro b h
    by_cases hl : line = ""
    · subst hl
      rw [show classifyLine "" = .error (.other "string index out of range") from rfl] at h
      cases h
    · simp [collectBuckets, collectBucketsGo, hl, h]

/-- Counterexample to C5 as stated: an ignored-file entry matches none of
the four rules and is placed in no bucket, so not every status line
belongs to exactly one bucket. -/
theorem c5_counterexample :
    classifyLine "!! ignored.txt" = .ok none
    ∧ collectBuckets ["!! ignored.txt"] = .ok emptyBuckets :=
  ⟨rfl, rfl⟩

/-- Witness for the amended C5: one concrete line per rule, each classified
by the rule whose condition fires first. -/
theorem c5_witness :
    classifyLine "UU both.txt" = .ok (some .conflicts)
    ∧ classifyLine "M  staged.txt" = .ok (some .staged)
    ∧ classifyLine " M work.txt" = .ok (some .modified)
    ∧ classifyLine "?? new.txt" = .ok (some .untracked) :=
  ⟨(c5_precedence_amended "UU both.txt").1 (by decide),
   (c5_precedence_amended "M  staged.txt").2.1 (by decide) (by decide),
   (c5_precedence_amended " M work.txt").2.2.1 (by decide) (by decide) (by decide),
   (c5_precedence_amended "?? new.txt").2.2.2.1 (by decide) (by decide) (by decide)
     (by decide)⟩

/-- Claim C8 (amended): when the probe resolves a named branch, a rev-list
failure never sets error; a non-zero rev-list exit leaves ahead and behind
at 0, and the parse of its output leaves both at 0 when the output does
not split into exactly two tab-separated fields or the first field is not
an integer, but when the first field parses as an integer and the second
does not, ahead keeps that parsed value while behind stays 0. -/
theorem c8_ahead_behind_amended (w : GitWorld) (info : RepoInfo) (rp b : String)
    (rpr rl sp st : ProcResult) (bk : Buckets)
    (hrp : rp = pyPath (info.path.getD ""))
    (h1 : w.fsExists rp = true) (h2 : w.fsExists (pyJoin rp ".git") = true)
    (hrv : w.revParseHead rp = .ok rpr) (hrc : rpr.returncode = 0)
    (hb : pyStrip rpr.stdout = b) (hbne : b ≠ "") (hbnh : b ≠ "HEAD")
    (hrl : w.revList rp b = .ok rl)
    (hsp : w.statusPorcelain rp = .ok sp) (hspc : sp.returncode = 0)
    (hbk : collectBuckets (pySplit (pyStrip sp.stdout) '\n') = .ok bk)
    (hst : w.stashList rp = .ok st) :
    (get_repository_status w info false).error = none
    ∧ (rl.returncode ≠ 0 →
        (get_repository_status w info false).ahead = 0
        ∧ (get_repository_status w info false).behind = 0)
    ∧ (rl.returncode = 0 →
        ((get_repository_status w info false).ahead,
          (get_repository_status w info false).behind) = parseAheadBehind rl.stdout)
    ∧ (∀ a bs, pySplit (pyStrip rl.stdout) '\t' = [a, bs] → pyInt a = none →
        parseAheadBehind rl.stdout = (0, 0))
    ∧ (∀ a bs ia, pySplit (pyStrip rl.stdout) '\t' = [a, bs] → pyInt a = some ia →
        pyInt bs = none → parseAheadBehind rl.stdout = (ia, 0))
    ∧ (∀ gs, pySplit (pyStrip rl.stdout) '\t' = gs → gs.length ≠ 2 →
        parseAheadBehind rl.stdout = (0, 0)) := by
  subst hrp
  have hab0 : rl.returncode ≠ 0 → abStep w (pyPath (info.path.getD "")) (branchOf rpr)
      = .ok (0, 0) := by
    intro h0
    simp [abStep, branchOf, hrc, hb, hbne, hbnh, hrl, h0]
  have hab1 : rl.returncode = 0 → abStep w (pyPath (info.path.getD "")) (branchOf rpr)
      = .ok (parseAheadBehind rl.stdout) := by
    intro h0
    simp [abStep, branchOf, hrc, hb, hbne, hbnh, hrl, h0]
  have hshape : ∀ ab, abStep w (pyPath (info.path.getD "")) (branchOf rpr) = .ok ab →
      get_repository_status w info false
        = mkStatus info (pyPath (info.path.getD "")) (branchOf rpr) ab bk (stashCount st) := by
    intro ab hab
    simp [get_repository_status, h1, h2, probeGitRepo, probeBody, fetchStep, hrv, hab,
      hsp, bucketsStep, hspc, hbk, hst]
  refine ⟨?_, ?_, ?_, ?_, ?_, ?_⟩
  · by_cases h0 : rl.returncode = 0
    · rw [hshape _ (hab1 h0)]; simp [mkStatus]
    · rw [hshape _ (hab0 h0)]; simp [mkStatus]
  · intro h0
    rw [hshape _ (hab0 h0)]
    exact ⟨rfl, rfl⟩
  · intro h0
    rw [hshape _ (hab1 h0)]
    simp [mkStatus]
  · intro a bs hsplit hia
    simp [parseAheadBehind, hsplit, hia]
  · intro a bs ia hsplit hia hib
    simp [parseAheadBehind, hsplit, hia, hib]
  · intro gs hsplit hlen
    rcases gs with _ | ⟨a, _ | ⟨b2, _ | ⟨c3, t⟩⟩⟩
    · simp [parseAheadBehind, hsplit]
    · simp [parseAheadBehind, hsplit]
    · simp at hlen
    · simp [parseAheadBehind, hsplit]

/-- Counterexample to C8 as stated: rev-list output whose second field is
not an integer leaves ahead at the parsed first value 3, not 0, with no
error set. -/
theorem c8_counterexample :
    pyInt "foo" = none
    ∧ (get_repository_status wPartialParse infoA false).ahead = 3
    ∧ (get_repository_status wPartialParse infoA false).behind = 0
    ∧ (get_repository_status wPartialParse infoA false).error = none :=
  ⟨rfl, rfl, rfl, rfl⟩

/-- Witness for the amended C8 at the concrete partial-parse world. -/
theorem c8_witness :
    (get_repository_status wPartialParse infoA false).error = none
    ∧ parseAheadBehind "3\tfoo" = (3, 0) :=
  ⟨(c8_ahead_behind_amended wPartialParse infoA "/repo/alpha" "main"
      ⟨0, "main\n", ""⟩ ⟨0, "3\tfoo", ""⟩ ⟨0, "", ""⟩ ⟨0, "", ""⟩ emptyBuckets
      rfl rfl rfl rfl rfl rfl (by decide) (by decide) rfl rfl rfl rfl rfl).1,
   (c8_ahead_behind_amended wPartialParse infoA "/repo/alpha" "main"
      ⟨0, "main\n", ""⟩ ⟨0, "3\tfoo", ""⟩ ⟨0, "", ""⟩ ⟨0, "", ""⟩ emptyBuckets
      rfl rfl rfl rfl rfl rfl (by decide) (by decide) rfl rfl rfl rfl rfl).2.2.2.2.1
     "3" "foo" 3 rfl rfl rfl⟩

/-- Claim C10: a repository record whose path is missing or empty resolves
to Path of the empty string, which denotes the current directory "."; the
path-existence check passes whenever the current directory exists, so the
record is not reported with the path-not-found error and is instead
probed, synced, pulled or health-checked against ".". -/
theorem c10_empty_path (w : GitWorld) (info : RepoInfo) (fetch force : Bool)
    (hp : info.path = none ∨ info.path = some "")
    (hcwd : w.fsExists "." = true) :
    pyPath (info.path.getD "") = "."
    ∧ (get_repository_status w info fetch =
        if w.fsExists (pyJoin "." ".git") = false then
          errorShape info "." "Not a git repository"
        else probeGitRepo w info "." fetch)
    ∧ (sync_repository w info =
        if w.fsExists (pyJoin "." ".git") = false then
          ⟨info.name.getD "Unknown", false, "Not a git repository"⟩
        else syncGitRepo w "." (info.name.getD "Unknown"))
    ∧ (pull_repository w info force =
        if w.fsExists (pyJoin "." ".git") = false then
          ⟨info.name.getD "Unknown", false, "Not a git repository"⟩
        else pullGitRepo w "." (info.name.getD "Unknown") force)
    ∧ (check_repository_health w info =
        if w.fsExists (pyJoin "." ".git") = false then
          [notGitIssue (info.name.getD "Unknown")]
        else healthChecks w "." (info.name.getD "Unknown")) := by
  have hrp : pyPath (info.path.getD "") = "." := by
    rcases hp with h | h <;> simp [h, pyPath]
  refine ⟨hrp, ?_, ?_, ?_, ?_⟩
  · simp [get_repository_status, hrp, hcwd]
  · simp [sync_repository, hrp, hcwd]
  · simp [pull_repository, hrp, hcwd]
  · simp [check_repository_health, hrp, hcwd]

/-- Witness for C10 at a concrete record with no path key. -/
theorem c10_witness :
    pyPath (infoNoPath.path.getD "") = "."
    ∧ (get_repository_status wBase infoNoPath false =
        if wBase.fsExists (pyJoin "." ".git") = false then
          errorShape infoNoPath "." "Not a git repository"
        else probeGitRepo wBase infoNoPath "." false)
    ∧ (sync_repository wBase infoNoPath =
        if wBase.fsExists (pyJoin "." ".git") = false then
          ⟨infoNoPath.name.getD "Unknown", false, "Not a git repository"⟩
        else syncGitRepo wBase "." (infoNoPath.name.getD "Unknown"))
    ∧ (pull_repository wBase infoNoPath false =
        if wBase.fsExists (pyJoin "." ".git") = false then
          ⟨infoNoPath.name.getD "Unknown", false, "Not a git repository"⟩
        else pullGitRepo wBase "." (infoNoPath.name.getD "Unknown") false)
    ∧ (check_repository_health wBase infoNoPath =
        if wBase.fsExists (pyJoin "." ".git") = false then
          [notGitIssue (infoNoPath.name.getD "Unknown")]
        else healthChecks wBase "." (infoNoPath.name.getD "Unknown")) :=
  c10_empty_path wBase infoNoPath false false (Or.inl rfl) rfl
